import Mathlib

/-!
Verification development for a small Express backend (`src/server.ts`):
a contact-form relay with newsletter subscribe/unsubscribe endpoints.

The embedding models:
* the MD5 subscriber-hash derivation (`crypto.createHash("md5")` over the
  lowercased email, hex digest) used by the unsubscribe endpoint and the
  contact-flow enrollment,
* the Zod validation schema `contactFormSchema`,
* the three stateful HTTP handlers (`/api/mailchimp/newsletter/subscribe`,
  `/api/mailchimp/newsletter/unsubscribe/:email`, `/api/contact`) as pure
  functions from an environment, an oracle for the external collaborators
  (mail transport and audience service), and the request payload, to an
  HTTP response paired with the trace of external calls made.

Strings are modelled over Lean `String`; lengths are code points, which
agrees with JavaScript `.length` on the ASCII inputs considered here, and
`String.toLower` models `toLowerCase` (ASCII case folding).
-/

/-! ## MD5 (RFC 1321), as computed by node's `crypto.createHash("md5")` -/

/-- Truncate to a 32-bit word. -/
def m32 (n : Nat) : Nat := n % 4294967296

/-- 32-bit addition. -/
def add32 (a b : Nat) : Nat := m32 (a + b)

/-- 32-bit bitwise complement. -/
def not32 (x : Nat) : Nat := x ^^^ 4294967295

/-- Rotate a 32-bit word left by `s` bits (`0 < s < 32`, input already reduced). -/
def rotl32 (x s : Nat) : Nat := m32 (x * 2 ^ s) + x / 2 ^ (32 - s)

/-- The 64 MD5 sine-derived constants `T[i] = floor(2^32 * |sin(i+1)|)`. -/
def md5K : List Nat :=
  [0xd76aa478, 0xe8c7b756, 0x242070db, 0xc1bdceee,
   0xf57c0faf, 0x4787c62a, 0xa8304613, 0xfd469501,
   0x698098d8, 0x8b44f7af, 0xffff5bb1, 0x895cd7be,
   0x6b901122, 0xfd987193, 0xa679438e, 0x49b40821,
   0xf61e2562, 0xc040b340, 0x265e5a51, 0xe9b6c7aa,
   0xd62f105d, 0x02441453, 0xd8a1e681, 0xe7d3fbc8,
   0x21e1cde6, 0xc33707d6, 0xf4d50d87, 0x455a14ed,
   0xa9e3e905, 0xfcefa3f8, 0x676f02d9, 0x8d2a4c8a,
   0xfffa3942, 0x8771f681, 0x6d9d6122, 0xfde5380c,
   0xa4beea44, 0x4bdecfa9, 0xf6bb4b60, 0xbebfbc70,
   0x289b7ec6, 0xeaa127fa, 0xd4ef3085, 0x04881d05,
   0xd9d4d039, 0xe6db99e5, 0x1fa27cf8, 0xc4ac5665,
   0xf4292244, 0x432aff97, 0xab9423a7, 0xfc93a039,
   0x655b59c3, 0x8f0ccc92, 0xffeff47d, 0x85845dd1,
   0x6fa87e4f, 0xfe2ce6e0, 0xa3014314, 0x4e0811a1,
   0xf7537e82, 0xbd3af235, 0x2ad7d2bb, 0xeb86d391]

/-- The per-round left-rotation amounts. -/
def md5S : List Nat :=
  [7, 12, 17, 22, 7, 12, 17, 22, 7, 12, 17, 22, 7, 12, 17, 22,
   5, 9, 14, 20, 5, 9, 14, 20, 5, 9, 14, 20, 5, 9, 14, 20,
   4, 11, 16, 23, 4, 11, 16, 23, 4, 11, 16, 23, 4, 11, 16, 23,
   6, 10, 15, 21, 6, 10, 15, 21, 6, 10, 15, 21, 6, 10, 15, 21]

/-- MD5 working state: four 32-bit words. -/
structure MD5State where
  a : Nat
  b : Nat
  c : Nat
  d : Nat
deriving Repr, DecidableEq

/-- MD5 initial state. -/
def md5Init : MD5State := ⟨0x67452301, 0xefcdab89, 0x98badcfe, 0x10325476⟩

/-- One of the 64 MD5 operations; `M` fetches message words of the block. -/
def md5Op (M : Nat → Nat) (st : MD5State) (i : Nat) : MD5State :=
  let f :=
    if i < 16 then (st.b &&& st.c) ||| (not32 st.b &&& st.d)
    else if i < 32 then (st.d &&& st.b) ||| (not32 st.d &&& st.c)
    else if i < 48 then st.b ^^^ st.c ^^^ st.d
    else st.c ^^^ (st.b ||| not32 st.d)
  let g :=
    if i < 16 then i
    else if i < 32 then (5 * i + 1) % 16
    else if i < 48 then (3 * i + 5) % 16
    else (7 * i) % 16
  let tmp := m32 (st.a + f + md5K.getD i 0 + M g)
  ⟨st.d, add32 st.b (rotl32 tmp (md5S.getD i 0)), st.b, st.c⟩

/-- Assemble a 64-byte block into 16 little-endian 32-bit words. -/
def toWords : List Nat → List Nat
  | b0 :: b1 :: b2 :: b3 :: rest =>
      (b0 + 256 * b1 + 65536 * b2 + 16777216 * b3) :: toWords rest
  | _ => []

/-- Process one 64-byte block. -/
def md5Block (st : MD5State) (block : List Nat) : MD5State :=
  let w := toWords block
  let r := (List.range 64).foldl (md5Op fun g => w.getD g 0) st
  ⟨add32 st.a r.a, add32 st.b r.b, add32 st.c r.c, add32 st.d r.d⟩

/-- Split a byte list into 64-byte chunks (structural on a fuel that the
list length bounds). -/
def chunksAux : Nat → List Nat → List (List Nat)
  | 0, _ => []
  | _, [] => []
  | n + 1, l => l.take 64 :: chunksAux n (l.drop 64)

/-- Split a byte list into 64-byte chunks. -/
def chunks64 (l : List Nat) : List (List Nat) := chunksAux l.length l

/-- MD5 padding: append `0x80`, zero bytes to 56 mod 64, then the 64-bit
little-endian bit length. -/
def md5Pad (msg : List Nat) : List Nat :=
  let bitLen := (8 * msg.length) % 2 ^ 64
  let r := (msg.length + 1) % 64
  let zeros := List.replicate ((120 - r) % 64) 0
  msg ++ [0x80] ++ zeros ++
    [bitLen % 256, bitLen / 256 % 256, bitLen / 65536 % 256,
     bitLen / 16777216 % 256, bitLen / 2 ^ 32 % 256, bitLen / 2 ^ 40 % 256,
     bitLen / 2 ^ 48 % 256, bitLen / 2 ^ 56 % 256]

/-- MD5 digest of a byte list: the final four-word state. -/
def md5Digest (msg : List Nat) : MD5State :=
  (chunks64 (md5Pad msg)).foldl md5Block md5Init

/-- UTF-8 encoding of one character, as node buffers the update string. -/
def utf8Bytes (c : Char) : List Nat :=
  let n := c.toNat
  if n < 0x80 then [n]
  else if n < 0x800 then [0xC0 + n / 0x40, 0x80 + n % 0x40]
  else if n < 0x10000 then
    [0xE0 + n / 0x1000, 0x80 + n / 0x40 % 0x40, 0x80 + n % 0x40]
  else
    [0xF0 + n / 0x40000, 0x80 + n / 0x1000 % 0x40,
     0x80 + n / 0x40 % 0x40, 0x80 + n % 0x40]

/-- The UTF-8 bytes of a string. -/
def strBytes (s : String) : List Nat := (s.data.map utf8Bytes).flatten

/-- Lowercase hexadecimal digit. -/
def hexDigit (n : Nat) : Char :=
  if n < 10 then Char.ofNat (48 + n) else Char.ofNat (87 + n)

/-- Two lowercase hex digits of a byte. -/
def byteHex (b : Nat) : String := String.mk [hexDigit (b / 16), hexDigit (b % 16)]

/-- Hex rendering of a 32-bit word, little-endian byte order (as MD5 outputs). -/
def wordHexLE (w : Nat) : String :=
  byteHex (w % 256) ++ byteHex (w / 256 % 256) ++
  byteHex (w / 65536 % 256) ++ byteHex (w / 16777216 % 256)

/-- `crypto.createHash("md5").update(s).digest("hex")`: lowercase hex MD5. -/
def md5Hex (s : String) : String :=
  let st := md5Digest (strBytes s)
  wordHexLE st.a ++ wordHexLE st.b ++ wordHexLE st.c ++ wordHexLE st.d

/-! ## Email syntax (the validation library's email format check)

The schema's `z.email` matches
`^(?!\.)(?!.*\.\.)([A-Za-z0-9_'+\-\.]*)[A-Za-z0-9_+-]@([A-Za-z0-9][A-Za-z0-9\-]*\.)+[A-Za-z]{2,}$`. -/

/-- ASCII letter or digit, the `[A-Za-z0-9]` class. -/
def isAlphaNum (c : Char) : Bool := c.isAlpha || c.isDigit

/-- The wide local-part class `[A-Za-z0-9_'+\-\.]`. -/
def isLocalChar (c : Char) : Bool :=
  isAlphaNum c || c = '_' || c = Char.ofNat 39 || c = '+' || c = '-' || c = '.'

/-- The class `[A-Za-z0-9_+-]` required just before the `@`. -/
def isLocalLastChar (c : Char) : Bool :=
  isAlphaNum c || c = '_' || c = '+' || c = '-'

/-- `(?!.*\.\.)`: no two consecutive dots anywhere. -/
def noDoubleDot : List Char → Bool
  | '.' :: '.' :: _ => false
  | _ :: rest => noDoubleDot rest
  | [] => true

/-- Split a character list on every occurrence of `sep` (empty parts kept). -/
def splitOnChar (sep : Char) : List Char → List (List Char)
  | [] => [[]]
  | c :: rest =>
    let r := splitOnChar sep rest
    if c = sep then [] :: r
    else
      match r with
      | h :: t => (c :: h) :: t
      | [] => [[c]]

/-- Local part: wide-class characters ending in a `[A-Za-z0-9_+-]` character,
not starting with a dot. -/
def localOk (l : List Char) : Bool :=
  (match l with
   | '.' :: _ => false
   | _ => true) &&
  (match l.reverse with
   | last :: rest => isLocalLastChar last && rest.all isLocalChar
   | [] => false)

/-- A domain label `[A-Za-z0-9][A-Za-z0-9\-]*`. -/
def labelOk (l : List Char) : Bool :=
  match l with
  | [] => false
  | c :: rest => isAlphaNum c && rest.all fun d => isAlphaNum d || d = '-'

/-- The final label `[A-Za-z]{2,}`. -/
def tldOk (l : List Char) : Bool := 2 ≤ l.length && l.all Char.isAlpha

/-- Domain: at least one label, a dot, then an alphabetic top-level label. -/
def domainOk (d : List Char) : Bool :=
  match (splitOnChar '.' d).reverse with
  | tld :: rest => !rest.isEmpty && tldOk tld && rest.all labelOk
  | [] => false

/-- The email format check applied by the schema. -/
def isValidEmail (s : String) : Bool :=
  noDoubleDot s.data &&
  match splitOnChar '@' s.data with
  | [l, d] => localOk l && domainOk d
  | _ => false

/-! ## The validation schema `contactFormSchema` (server.ts lines 35-59)

An inbound JSON field is either absent or one of the primitive shapes the
schema distinguishes; objects/arrays in a field behave like `jother` (a
non-string, non-boolean value). -/

/-- A JSON value in a contact-form field. -/
inductive JVal where
  | jstr (s : String)
  | jnum (n : Int)
  | jbool (b : Bool)
  | jnull
  | jother
deriving Repr, DecidableEq

/-- The raw, unvalidated contact-form payload; `none` is an absent field. -/
structure RawContact where
  name : Option JVal
  email : Option JVal
  phone : Option JVal
  contactAbout : Option JVal
  message : Option JVal
  agreeToPolicy : Option JVal
deriving Repr, DecidableEq

/-- One entry of the 400 response's `errors` array: dotted path and message. -/
structure FieldError where
  field : String
  message : String
deriving Repr, DecidableEq

/-- The library's type-name for a field value, used in default type errors. -/
def jvalType : Option JVal → String
  | none => "undefined"
  | some (.jstr _) => "string"
  | some (.jnum _) => "number"
  | some (.jbool _) => "boolean"
  | some .jnull => "null"
  | some .jother => "object"

/-- Default invalid-type issue for a field. -/
def typeErr (field expected : String) (v : Option JVal) : FieldError :=
  ⟨field, "Invalid input: expected " ++ expected ++ ", received " ++ jvalType v⟩

/-- `name: z.string().min(2, ...)`. -/
def checkName (v : Option JVal) : List FieldError :=
  match v with
  | some (.jstr s) =>
    if 2 ≤ s.length then [] else [⟨"name", "Name must be at least 2 characters."⟩]
  | _ => [typeErr "name" "string" v]

/-- `email: z.email(...)`: the schema-level `{message}` customises every
issue this schema raises, the invalid-type issue included, so both a
malformed string and a non-string report the same message. -/
def checkEmail (v : Option JVal) : List FieldError :=
  match v with
  | some (.jstr s) =>
    if isValidEmail s then [] else [⟨"email", "Please enter a valid email address."⟩]
  | _ => [⟨"email", "Please enter a valid email address."⟩]

/-- `phone: z.string().min(10, ...)`. -/
def checkPhone (v : Option JVal) : List FieldError :=
  match v with
  | some (.jstr s) =>
    if 10 ≤ s.length then []
    else [⟨"phone", "Please enter a valid phone number."⟩]
  | _ => [typeErr "phone" "string" v]

/-- `contactAbout: z.string({ message: "Please select a topic." })`: the only
check is that the value is a string; the custom message replaces the type
error. -/
def checkContactAbout (v : Option JVal) : List FieldError :=
  match v with
  | some (.jstr _) => []
  | _ => [⟨"contactAbout", "Please select a topic."⟩]

/-- `message: z.string().min(20, ...).max(1000, ...)`. -/
def checkMessage (v : Option JVal) : List FieldError :=
  match v with
  | some (.jstr s) =>
    if s.length < 20 then [⟨"message", "Message must be at least 20 characters."⟩]
    else if 1000 < s.length then
      [⟨"message", "Message must not exceed 1000 characters."⟩]
    else []
  | _ => [typeErr "message" "string" v]

/-- `agreeToPolicy: z.boolean().refine(val => val === true, ...)`. -/
def checkAgree (v : Option JVal) : List FieldError :=
  match v with
  | some (.jbool b) =>
    if b then [] else [⟨"agreeToPolicy", "You must agree to the policies to continue."⟩]
  | _ => [typeErr "agreeToPolicy" "boolean" v]

/-- All issues reported by `contactFormSchema.parse`: every field is checked
and the issues are aggregated in schema order (no fail-fast). -/
def zodIssues (p : RawContact) : List FieldError :=
  checkName p.name ++ checkEmail p.email ++ checkPhone p.phone ++
  checkContactAbout p.contactAbout ++ checkMessage p.message ++
  checkAgree p.agreeToPolicy

/-- The validated contact submission. -/
structure Contact where
  name : String
  email : String
  phone : String
  contactAbout : String
  message : String
  agreeToPolicy : Bool
deriving Repr, DecidableEq

/-- The string content of a field (meaningful once its check passed). -/
def theStr : Option JVal → String
  | some (.jstr s) => s
  | _ => ""

/-- The boolean content of a field (meaningful once its check passed). -/
def theBool : Option JVal → Bool
  | some (.jbool b) => b
  | _ => false

/-- The submission extracted from a payload that passed validation. -/
def validatedOf (p : RawContact) : Contact :=
  ⟨theStr p.name, theStr p.email, theStr p.phone, theStr p.contactAbout,
   theStr p.message, theBool p.agreeToPolicy⟩

/-! ## Environment, collaborators and call traces -/

/-- JavaScript truthiness of an optional environment/body string: absent and
the empty string are falsy. -/
def envTruthy : Option String → Bool
  | none => false
  | some s => s ≠ ""

/-- `a || b` on optional strings (JS: falsy left operand selects the right). -/
def jsOr (a b : Option String) : Option String :=
  if envTruthy a then a else b

/-- The environment variables the handlers read. -/
structure Env where
  gmailUser : Option String
  contactRecipient : Option String
  audienceId : Option String
deriving Repr, DecidableEq

/-- The shape the code reads off a thrown Mailchimp error
(`status?`, `response?.body?.title?`, `message`). -/
structure McBody where
  title : Option String
deriving Repr, DecidableEq

/-- `response` of a Mailchimp error. -/
structure McResponse where
  body : Option McBody
deriving Repr, DecidableEq

/-- A Mailchimp SDK error. -/
structure MailchimpError where
  status : Option Int
  response : Option McResponse
  message : String
deriving Repr, DecidableEq

/-- `err.response?.body?.title`. -/
def titleOf (e : MailchimpError) : Option String :=
  (e.response.bind McResponse.body).bind McBody.title

/-- The body passed to `lists.addListMember` from the subscribe endpoint. -/
structure SubBody where
  email_address : String
  status : String
  fname : String
  lname : String
deriving Repr, DecidableEq

/-- The body passed to `lists.addListMember` from the contact flow
(merge fields plus the `contact-form` tag). -/
structure AddBody where
  email_address : String
  status : String
  fname : String
  lname : String
  phone : String
  tags : List String
deriving Repr, DecidableEq

/-- The options object given to `transporter.sendMail`. -/
structure MailOptions where
  fromAddr : Option String
  toAddr : Option String
  subject : String
  html : String
  replyTo : String
deriving Repr, DecidableEq

/-- One call to an external collaborator, in order of occurrence. -/
inductive ApiCall where
  | sendMail (opts : MailOptions)
  | getListMember (listId subscriberHash : String)
  | addListMemberSub (listId : String) (body : SubBody)
  | addListMemberContact (listId : String) (body : AddBody)
  | updateListMember (listId subscriberHash status : String)
deriving Repr, DecidableEq

/-- Whether a call targets the audience (Mailchimp) service. -/
def isAudienceCall : ApiCall → Bool
  | .sendMail _ => false
  | _ => true

/-- Outcomes of the external collaborators, one oracle per operation; an
`Except.error` models the SDK call throwing. -/
structure Oracle where
  sendMail : MailOptions → Except String Unit
  getListMember : String → String → Except MailchimpError Unit
  addListMemberSub : String → SubBody → Except MailchimpError String
  addListMemberContact : String → AddBody → Except MailchimpError Unit
  updateListMember : String → String → String → Except MailchimpError Unit

/-- The JSON body of an HTTP response, with the HTTP status code. -/
structure HttpResponse where
  status : Nat
  success : Bool
  message : String
  error : Option String := none
  errors : List FieldError := []
  memberStatus : Option String := none
deriving Repr, DecidableEq

/-! ## Newsletter subscribe (server.ts lines 103-158) -/

/-- The request body of the subscribe endpoint. -/
structure SubscribeRequestBody where
  email : Option String
  firstName : Option String
  lastName : Option String
deriving Repr, DecidableEq

/-- The body passed to `addListMember` by the subscribe endpoint. -/
def subBodyOf (b : SubscribeRequestBody) : SubBody :=
  { email_address := b.email.getD "", status := "subscribed",
    fname := b.firstName.getD "", lname := b.lastName.getD "" }

/-- `POST /api/mailchimp/newsletter/subscribe`. -/
def subscribeHandler (env : Env) (o : Oracle) (b : SubscribeRequestBody) :
    HttpResponse × List ApiCall :=
  if ¬ envTruthy b.email then
    ({ status := 400, success := false, message := "Email is required" }, [])
  else if ¬ envTruthy env.audienceId then
    ({ status := 500, success := false,
       message := "Mailchimp audience ID is not configured" }, [])
  else
    let aid := env.audienceId.getD ""
    let body := subBodyOf b
    match o.addListMemberSub aid body with
    | .ok st =>
      ({ status := 201, success := true,
         message := "Successfully subscribed to newsletter!",
         memberStatus := some st }, [.addListMemberSub aid body])
    | .error err =>
      if err.status = some 400 ∧ titleOf err = some "Member Exists" then
        ({ status := 400, success := false,
           message := "This email is already subscribed to the newsletter" },
         [.addListMemberSub aid body])
      else
        ({ status := 500, success := false,
           message := "Failed to subscribe to newsletter",
           error := some err.message }, [.addListMemberSub aid body])

/-! ## Newsletter unsubscribe (server.ts lines 161-208) -/

/-- `email.toLowerCase()` (ASCII case folding on the character list). -/
def jsToLower (s : String) : String := String.mk (s.data.map Char.toLower)

/-- The subscriber hash derived at server.ts lines 181-184:
MD5 hex digest of the lowercased email. -/
def subscriberHashUnsubscribe (email : String) : String :=
  md5Hex (jsToLower email)

/-- `DELETE /api/mailchimp/newsletter/unsubscribe/:email`. -/
def unsubscribeHandler (env : Env) (o : Oracle) (email : String) :
    HttpResponse × List ApiCall :=
  if email = "" then
    ({ status := 400, success := false, message := "Email is required" }, [])
  else if ¬ envTruthy env.audienceId then
    ({ status := 500, success := false,
       message := "Mailchimp audience ID is not configured" }, [])
  else
    let aid := env.audienceId.getD ""
    let subscriberHash := subscriberHashUnsubscribe email
    match o.updateListMember aid subscriberHash "unsubscribed" with
    | .ok _ =>
      ({ status := 200, success := true,
         message := "Successfully unsubscribed from newsletter" },
       [.updateListMember aid subscriberHash "unsubscribed"])
    | .error err =>
      ({ status := 500, success := false,
         message := "Failed to unsubscribe from newsletter",
         error := some err.message },
       [.updateListMember aid subscriberHash "unsubscribed"])

/-! ## Contact form submission (server.ts lines 211-305) -/

/-- The subscriber hash derived at server.ts lines 242-245:
MD5 hex digest of the lowercased email. -/
def subscriberHashContact (email : String) : String :=
  md5Hex (jsToLower email)

/-- `name.split(" ")`: split on the space character, keeping empty parts. -/
def nameParts (name : String) : List String :=
  (splitOnChar ' ' name.data).map String.mk

/-- `nameParts[0] || ""`. -/
def firstNameOf (name : String) : String :=
  (nameParts name).headD ""

/-- `nameParts.slice(1).join(" ") || ""`. -/
def lastNameOf (name : String) : String :=
  String.intercalate " " ((nameParts name).drop 1)

/-- The `mailOptions` object built for the notification email. -/
def mailOptionsOf (env : Env) (c : Contact) : MailOptions :=
  { fromAddr := env.gmailUser,
    toAddr := jsOr env.contactRecipient env.gmailUser,
    subject := "New Contact Form Submission: " ++ c.name ++ " " ++ c.email,
    html :=
      "<h2>New Contact Form Submission</h2>" ++
      "<p><strong>Name:</strong> " ++ c.name ++ "</p>" ++
      "<p><strong>Email:</strong> " ++ c.email ++ "</p>" ++
      "<p><strong>Phone:</strong> " ++ c.phone ++ "</p>" ++
      "<p><strong>Topic:</strong> " ++ c.contactAbout ++ "</p>" ++
      "<p><strong>Message:</strong></p><p>" ++ c.message ++ "</p><hr>" ++
      "<p><em>Agreed to policies: " ++
      (if c.agreeToPolicy then "Yes" else "No") ++ "</em></p>",
    replyTo := c.email }

/-- The `addListMember` body built in the contact flow when the member
lookup threw. -/
def contactAddBody (c : Contact) : AddBody :=
  { email_address := c.email, status := "subscribed",
    fname := firstNameOf c.name, lname := lastNameOf c.name,
    phone := c.phone, tags := ["contact-form"] }

/-- `POST /api/contact` as written: validate, send the notification email,
then best-effort newsletter enrollment (lookup, add on lookup failure, all
audience-service failures swallowed), and reply. The validation branch
renders the 400 body the catch block tries to build from `error.errors`;
at runtime that property read crashes the catch block instead — see
`zodErrorErrors` and `contactEndpoint` below for the faithful behaviour of
that branch (every theorem about the validated path conditions on
`zodIssues p = []`, where the two functions agree). -/
def contactHandler (env : Env) (o : Oracle) (p : RawContact) :
    HttpResponse × List ApiCall :=
  match zodIssues p with
  | e :: es =>
    ({ status := 400, success := false, message := "Validation error",
       errors := e :: es }, [])
  | [] =>
    let c := validatedOf p
    let mo := mailOptionsOf env c
    match o.sendMail mo with
    | .error msg =>
      ({ status := 500, success := false,
         message := "Failed to submit contact form", error := some msg },
       [.sendMail mo])
    | .ok _ =>
      let success : HttpResponse :=
        { status := 200, success := true,
          message := "Contact form submitted successfully!" }
      if ¬ envTruthy env.audienceId then (success, [.sendMail mo])
      else
        let aid := env.audienceId.getD ""
        let subscriberHash := subscriberHashContact c.email
        match o.getListMember aid subscriberHash with
        | .ok _ =>
          -- member already exists, skip adding
          (success, [.sendMail mo, .getListMember aid subscriberHash])
        | .error _ =>
          -- member missing: add them; any failure of the add is swallowed
          let body := contactAddBody c
          let _ := o.addListMemberContact aid body
          (success,
           [.sendMail mo, .getListMember aid subscriberHash,
            .addListMemberContact aid body])

/-- Outcome of one request to the endpoint: either a response was sent, or
the handler itself threw (an async rejection: no response is sent). -/
inductive CatchOutcome where
  | sent (r : HttpResponse)
  | threw
deriving Repr, DecidableEq

/-- Reading `error.errors` on a Zod 4 `ZodError` (the error thrown by
`contactFormSchema.parse`): the issue list is exposed as `issues` only —
the legacy `errors` property was removed in Zod 4 (the `//@ts-ignore`
above the access marks this) — so the property read yields `undefined`. -/
def zodErrorErrors (_issues : List FieldError) : Option (List FieldError) :=
  none

/-- The `ZodError` branch of the catch block as it executes: the code calls
`error.errors.map(...)` to build the 400 body, but `error.errors` is
`undefined`, so the call itself throws a TypeError and no response is
sent. -/
def contactCatchZodError (issues : List FieldError) : CatchOutcome :=
  match zodErrorErrors issues with
  | some errs =>
    .sent { status := 400, success := false, message := "Validation error",
            errors := errs }
  | none => .threw

/-- The full `/api/contact` endpoint: on a failed validation the catch
block crashes as in `contactCatchZodError` (no external call was made); on
a validated payload it behaves as `contactHandler`. -/
def contactEndpoint (env : Env) (o : Oracle) (p : RawContact) :
    CatchOutcome × List ApiCall :=
  match zodIssues p with
  | e :: es => (contactCatchZodError (e :: es), [])
  | [] => (.sent (contactHandler env o p).1, (contactHandler env o p).2)

/-! ## Code-side field validity and the spec-side comparators -/

/-- The `name` check passes: a string of length at least 2. -/
def nameOk : Option JVal → Bool
  | some (.jstr s) => 2 ≤ s.length
  | _ => false

/-- The `email` check passes: a string in email syntax. -/
def emailOk : Option JVal → Bool
  | some (.jstr s) => isValidEmail s
  | _ => false

/-- The `phone` check passes: a string of length at least 10. -/
def phoneOk : Option JVal → Bool
  | some (.jstr s) => 10 ≤ s.length
  | _ => false

/-- The `contactAbout` check passes: any string. -/
def contactAboutOk : Option JVal → Bool
  | some (.jstr _) => true
  | _ => false

/-- The `message` check passes: a string of length in `[20, 1000]`. -/
def messageOk : Option JVal → Bool
  | some (.jstr s) => decide (20 ≤ s.length ∧ s.length ≤ 1000)
  | _ => false

/-- The `agreeToPolicy` check passes: the boolean `true`. -/
def agreeOk : Option JVal → Bool
  | some (.jbool b) => b
  | _ => false

/-- The number of schema constraints a payload violates. -/
def violatedCount (p : RawContact) : Nat :=
  (if nameOk p.name then 0 else 1) + (if emailOk p.email then 0 else 1) +
  (if phoneOk p.phone then 0 else 1) +
  (if contactAboutOk p.contactAbout then 0 else 1) +
  (if messageOk p.message then 0 else 1) +
  (if agreeOk p.agreeToPolicy then 0 else 1)

/-- Modelled from the spec (§3 ContactSubmission): `contactAbout` is
"non-empty text". This is the spec's constraint, to be compared with the
schema's `checkContactAbout`. -/
def specContactAboutValid : Option JVal → Bool
  | some (.jstr s) => s ≠ ""
  | _ => false

/-- Modelled from the spec (§3 ContactSubmission): how many of the six
spec-stated constraints a payload violates (only the `contactAbout`
constraint differs from the schema's checks). -/
def specViolatedCount (p : RawContact) : Nat :=
  (if nameOk p.name then 0 else 1) + (if emailOk p.email then 0 else 1) +
  (if phoneOk p.phone then 0 else 1) +
  (if specContactAboutValid p.contactAbout then 0 else 1) +
  (if messageOk p.message then 0 else 1) +
  (if agreeOk p.agreeToPolicy then 0 else 1)

/-- Split a character list before every separator character (empty parts
kept), generalising `splitOnChar` to a predicate. -/
def splitOnPred (sep : Char → Bool) : List Char → List (List Char)
  | [] => [[]]
  | c :: rest =>
    let r := splitOnPred sep rest
    if sep c then [] :: r
    else
      match r with
      | h :: t => (c :: h) :: t
      | [] => [[c]]

/-- Modelled from the spec (§4.3 step 3): the submitter's name "split on
whitespace" into tokens. -/
def specNameTokens (name : String) : List String :=
  ((splitOnPred Char.isWhitespace name.data).filter fun l => ¬ l.isEmpty).map
    String.mk

/-- Modelled from the spec (§4.3 step 3): the first whitespace token. -/
def specFirstName (name : String) : String := (specNameTokens name).headD ""

/-- Modelled from the spec (§4.3 step 3): the remaining whitespace tokens
joined by single spaces. -/
def specLastName (name : String) : String :=
  String.intercalate " " ((specNameTokens name).drop 1)

/-! ## Concrete environments, oracles and payloads -/

/-- A fully configured environment. -/
def envFull : Env :=
  ⟨some "owner@gmail.com", some "recipient@example.com", some "list1"⟩

/-- An environment with no audience list configured. -/
def envNoAudience : Env := ⟨some "owner@gmail.com", none, none⟩

/-- A Mailchimp "resource not found" error, as thrown by a failed lookup. -/
def notFoundErr : MailchimpError :=
  ⟨some 404, some ⟨some ⟨some "Resource Not Found"⟩⟩,
   "The requested resource could not be found."⟩

/-- The Mailchimp duplicate-member error. -/
def memberExistsErr : MailchimpError :=
  ⟨some 400, some ⟨some ⟨some "Member Exists"⟩⟩, "Bad Request"⟩

/-- A generic Mailchimp failure without status or body. -/
def genericErr : MailchimpError := ⟨none, none, "connection reset"⟩

/-- Collaborators that all succeed. -/
def oracleAllOk : Oracle :=
  ⟨fun _ => .ok (), fun _ _ => .ok (), fun _ _ => .ok "subscribed",
   fun _ _ => .ok (), fun _ _ _ => .ok ()⟩

/-- The mail transport fails; the audience service succeeds. -/
def oracleMailFails : Oracle :=
  ⟨fun _ => .error "Invalid login: 535-5.7.8 Username and Password not accepted",
   fun _ _ => .ok (), fun _ _ => .ok "subscribed", fun _ _ => .ok (),
   fun _ _ _ => .ok ()⟩

/-- The mail transport succeeds; every audience-service call throws
(lookup not-found, contact-flow add fails, subscribe add reports a
duplicate member, update fails). -/
def oracleEnrollFails : Oracle :=
  ⟨fun _ => .ok (), fun _ _ => .error notFoundErr,
   fun _ _ => .error memberExistsErr, fun _ _ => .error genericErr,
   fun _ _ _ => .error genericErr⟩

/-- The subscribe-endpoint add fails with a generic error. -/
def oracleAddGenericFails : Oracle :=
  ⟨fun _ => .ok (), fun _ _ => .ok (), fun _ _ => .error genericErr,
   fun _ _ => .ok (), fun _ _ _ => .ok ()⟩

/-- A fully valid contact submission payload. -/
def pValid : RawContact :=
  ⟨some (.jstr "Jane Q Public"), some (.jstr "user@example.com"),
   some (.jstr "+1 555 123 4567"), some (.jstr "General Inquiry"),
   some (.jstr "I would like to know more about your services."),
   some (.jbool true)⟩

/-- Valid except that `contactAbout` is the empty string. -/
def pEmptyTopic : RawContact :=
  ⟨some (.jstr "Jane Q Public"), some (.jstr "user@example.com"),
   some (.jstr "+1 555 123 4567"), some (.jstr ""),
   some (.jstr "I would like to know more about your services."),
   some (.jbool true)⟩

/-- Two simultaneously invalid fields: a one-character name and a
nine-character message. -/
def pTwoInvalid : RawContact :=
  ⟨some (.jstr "J"), some (.jstr "user@example.com"),
   some (.jstr "+1 555 123 4567"), some (.jstr "General Inquiry"),
   some (.jstr "too short"), some (.jbool true)⟩

/-- Valid, with a tab (not a space) inside the submitter's name. -/
def pTabName : RawContact :=
  ⟨some (.jstr "Jane\tDoe"), some (.jstr "user@example.com"),
   some (.jstr "+1 555 123 4567"), some (.jstr "General Inquiry"),
   some (.jstr "I would like to know more about your services."),
   some (.jbool true)⟩

/-- The subscribe request used by concrete instances. -/
def bSub : SubscribeRequestBody := ⟨some "user@example.com", some "Jane", none⟩

/-! ## Helper lemmas -/

theorem checkName_length (v : Option JVal) :
    (checkName v).length = if nameOk v then 0 else 1 := by
  rcases v with _ | jv
  · rfl
  · cases jv with
    | jstr s => by_cases h : 2 ≤ s.length <;> simp [checkName, nameOk, h]
    | jnum n => rfl
    | jbool b => rfl
    | jnull => rfl
    | jother => rfl

theorem checkEmail_length (v : Option JVal) :
    (checkEmail v).length = if emailOk v then 0 else 1 := by
  rcases v with _ | jv
  · rfl
  · cases jv with
    | jstr s => by_cases h : isValidEmail s = true <;> simp [checkEmail, emailOk, h]
    | jnum n => rfl
    | jbool b => rfl
    | jnull => rfl
    | jother => rfl

theorem checkPhone_length (v : Option JVal) :
    (checkPhone v).length = if phoneOk v then 0 else 1 := by
  rcases v with _ | jv
  · rfl
  · cases jv with
    | jstr s => by_cases h : 10 ≤ s.length <;> simp [checkPhone, phoneOk, h]
    | jnum n => rfl
    | jbool b => rfl
    | jnull => rfl
    | jother => rfl

theorem checkContactAbout_length (v : Option JVal) :
    (checkContactAbout v).length = if contactAboutOk v then 0 else 1 := by
  rcases v with _ | jv
  · rfl
  · cases jv <;> rfl

theorem checkMessage_length (v : Option JVal) :
    (checkMessage v).length = if messageOk v then 0 else 1 := by
  rcases v with _ | jv
  · rfl
  · cases jv with
    | jstr s =>
      simp only [checkMessage, messageOk]
      by_cases h1 : s.length < 20
      · have h : ¬ (20 ≤ s.length ∧ s.length ≤ 1000) := by omega
        simp [h1, h]
      · by_cases h2 : 1000 < s.length
        · have h : ¬ (20 ≤ s.length ∧ s.length ≤ 1000) := by omega
          simp [h1, h2, h]
        · have h : 20 ≤ s.length ∧ s.length ≤ 1000 := by omega
          simp [h1, h2, h]
    | jnum n => rfl
    | jbool b => rfl
    | jnull => rfl
    | jother => rfl

theorem checkAgree_length (v : Option JVal) :
    (checkAgree v).length = if agreeOk v then 0 else 1 := by
  rcases v with _ | jv
  · rfl
  · cases jv with
    | jstr s => rfl
    | jnum n => rfl
    | jbool b => cases b <;> rfl
    | jnull => rfl
    | jother => rfl

theorem zodIssues_length (p : RawContact) :
    (zodIssues p).length = violatedCount p := by
  simp only [zodIssues, violatedCount, List.length_append, checkName_length,
    checkEmail_length, checkPhone_length, checkContactAbout_length,
    checkMessage_length, checkAgree_length]

theorem checkName_shape (v : Option JVal) :
    checkName v = [] ∨ ∃ m, checkName v = [⟨"name", m⟩] := by
  rcases v with _ | jv
  · exact Or.inr ⟨_, rfl⟩
  · cases jv with
    | jstr s =>
      by_cases h : 2 ≤ s.length
      · exact Or.inl (by simp [checkName, h])
      · exact Or.inr ⟨"Name must be at least 2 characters.", by simp [checkName, h]⟩
    | jnum n => exact Or.inr ⟨_, rfl⟩
    | jbool b => exact Or.inr ⟨_, rfl⟩
    | jnull => exact Or.inr ⟨_, rfl⟩
    | jother => exact Or.inr ⟨_, rfl⟩

theorem checkEmail_shape (v : Option JVal) :
    checkEmail v = [] ∨ ∃ m, checkEmail v = [⟨"email", m⟩] := by
  rcases v with _ | jv
  · exact Or.inr ⟨_, rfl⟩
  · cases jv with
    | jstr s =>
      by_cases h : isValidEmail s = true
      · exact Or.inl (by simp [checkEmail, h])
      · exact Or.inr ⟨"Please enter a valid email address.", by simp [checkEmail, h]⟩
    | jnum n => exact Or.inr ⟨_, rfl⟩
    | jbool b => exact Or.inr ⟨_, rfl⟩
    | jnull => exact Or.inr ⟨_, rfl⟩
    | jother => exact Or.inr ⟨_, rfl⟩

theorem checkPhone_shape (v : Option JVal) :
    checkPhone v = [] ∨ ∃ m, checkPhone v = [⟨"phone", m⟩] := by
  rcases v with _ | jv
  · exact Or.inr ⟨_, rfl⟩
  · cases jv with
    | jstr s =>
      by_cases h : 10 ≤ s.length
      · exact Or.inl (by simp [checkPhone, h])
      · exact Or.inr ⟨"Please enter a valid phone number.", by simp [checkPhone, h]⟩
    | jnum n => exact Or.inr ⟨_, rfl⟩
    | jbool b => exact Or.inr ⟨_, rfl⟩
    | jnull => exact Or.inr ⟨_, rfl⟩
    | jother => exact Or.inr ⟨_, rfl⟩

theorem checkContactAbout_shape (v : Option JVal) :
    checkContactAbout v = [] ∨ ∃ m, checkContactAbout v = [⟨"contactAbout", m⟩] := by
  rcases v with _ | jv
  · exact Or.inr ⟨_, rfl⟩
  · cases jv with
    | jstr s => exact Or.inl rfl
    | jnum n => exact Or.inr ⟨_, rfl⟩
    | jbool b => exact Or.inr ⟨_, rfl⟩
    | jnull => exact Or.inr ⟨_, rfl⟩
    | jother => exact Or.inr ⟨_, rfl⟩

theorem checkMessage_shape (v : Option JVal) :
    checkMessage v = [] ∨ ∃ m, checkMessage v = [⟨"message", m⟩] := by
  rcases v with _ | jv
  · exact Or.inr ⟨_, rfl⟩
  · cases jv with
    | jstr s =>
      by_cases h1 : s.length < 20
      · exact Or.inr ⟨"Message must be at least 20 characters.", by simp [checkMessage, h1]⟩
      · by_cases h2 : 1000 < s.length
        · exact Or.inr
            ⟨"Message must not exceed 1000 characters.", by simp [checkMessage, h1, h2]⟩
        · exact Or.inl (by simp [checkMessage, h1, h2])
    | jnum n => exact Or.inr ⟨_, rfl⟩
    | jbool b => exact Or.inr ⟨_, rfl⟩
    | jnull => exact Or.inr ⟨_, rfl⟩
    | jother => exact Or.inr ⟨_, rfl⟩

theorem checkAgree_shape (v : Option JVal) :
    checkAgree v = [] ∨ ∃ m, checkAgree v = [⟨"agreeToPolicy", m⟩] := by
  rcases v with _ | jv
  · exact Or.inr ⟨_, rfl⟩
  · cases jv with
    | jstr s => exact Or.inr ⟨_, rfl⟩
    | jnum n => exact Or.inr ⟨_, rfl⟩
    | jbool b =>
      cases b with
      | false => exact Or.inr ⟨_, rfl⟩
      | true => exact Or.inl rfl
    | jnull => exact Or.inr ⟨_, rfl⟩
    | jother => exact Or.inr ⟨_, rfl⟩

theorem zodIssues_fields (p : RawContact) :
    ∀ e ∈ zodIssues p,
      e.field ∈ (["name", "email", "phone", "contactAbout", "message",
        "agreeToPolicy"] : List String) := by
  intro e he
  simp only [zodIssues, List.mem_append] at he
  rcases he with ((((h | h) | h) | h) | h) | h
  · rcases checkName_shape p.name with hs | ⟨m, hs⟩ <;> rw [hs] at h <;> simp_all
  · rcases checkEmail_shape p.email with hs | ⟨m, hs⟩ <;> rw [hs] at h <;> simp_all
  · rcases checkPhone_shape p.phone with hs | ⟨m, hs⟩ <;> rw [hs] at h <;> simp_all
  · rcases checkContactAbout_shape p.contactAbout with hs | ⟨m, hs⟩ <;>
      rw [hs] at h <;> simp_all
  · rcases checkMessage_shape p.message with hs | ⟨m, hs⟩ <;> rw [hs] at h <;>
      simp_all
  · rcases checkAgree_shape p.agreeToPolicy with hs | ⟨m, hs⟩ <;> rw [hs] at h <;>
      simp_all

theorem splitOnChar_no_sep (sep : Char) (l : List Char) (h : sep ∉ l) :
    splitOnChar sep l = [l] := by
  induction l with
  | nil => rfl
  | cons c rest ih =>
    have hc : ¬ c = sep := fun he => h (he ▸ List.mem_cons_self c rest)
    have hr := ih fun hm => h (List.mem_cons_of_mem c hm)
    simp [splitOnChar, hc, hr]

theorem stringMk_length (l : List Char) : (String.mk l).length = l.length := rfl

set_option maxRecDepth 8000 in
/-- Sanity check of the MD5 embedding against the RFC 1321 test vectors
and the derived subscriber hash of a concrete email. -/
theorem md5_rfc_test_vectors :
    md5Hex "" = "d41d8cd98f00b204e9800998ecf8427e" ∧
    md5Hex "abc" = "900150983cd24fb0d6963f7d28e17f72" ∧
    subscriberHashContact "User@Example.com" =
      "b58996c504c5638798eb6b511e6f49af" := by
  refine ⟨by decide, by decide, by decide⟩

theorem lastNameOf_no_space (n : String) (h : ' ' ∉ n.data) :
    firstNameOf n = n ∧ lastNameOf n = "" := by
  have hs : splitOnChar ' ' n.data = [n.data] := splitOnChar_no_sep _ _ h
  constructor
  · simp [firstNameOf, nameParts, hs]
  · simp [lastNameOf, nameParts, hs, String.intercalate]

/-! ## Claims -/

/-- C5: emails equal up to letter case yield the same derived member
identifier (MD5 hex of the lowercased email), and the unsubscribe endpoint
and the contact-flow enrollment use the same digest scheme. -/
theorem subscriber_hash_case_insensitive (a b : String)
    (h : jsToLower a = jsToLower b) :
    subscriberHashContact a = subscriberHashContact b ∧
    subscriberHashUnsubscribe a = subscriberHashUnsubscribe b ∧
    ∀ e : String, subscriberHashContact e = subscriberHashUnsubscribe e := by
  refine ⟨?_, ?_, fun e => rfl⟩ <;>
    simp [subscriberHashContact, subscriberHashUnsubscribe, h]

/-- Witness for C5 at `User@Example.com` / `user@example.com`. -/
theorem subscriber_hash_case_insensitive_witness :
    jsToLower "User@Example.com" = jsToLower "user@example.com" ∧
    subscriberHashContact "User@Example.com" =
      subscriberHashContact "user@example.com" :=
  ⟨by decide, (subscriber_hash_case_insensitive "User@Example.com"
    "user@example.com" (by decide)).1⟩

/-- C9: a message of length exactly 20 or exactly 1000 satisfies the
message constraint; length 19 or 1001 violates it. -/
theorem message_boundary_lengths (s : String) :
    (s.length = 20 ∨ s.length = 1000 → checkMessage (some (.jstr s)) = []) ∧
    (s.length = 19 ∨ s.length = 1001 → checkMessage (some (.jstr s)) ≠ []) := by
  constructor
  · rintro (h | h) <;> simp [checkMessage, h]
  · rintro (h | h) <;> simp [checkMessage, h]

/-- Witness for C9 at messages of lengths 20, 1000, 19, 1001. -/
theorem message_boundary_lengths_witness :
    checkMessage (some (.jstr (String.mk (List.replicate 20 'a')))) = [] ∧
    checkMessage (some (.jstr (String.mk (List.replicate 1000 'a')))) = [] ∧
    checkMessage (some (.jstr (String.mk (List.replicate 19 'a')))) ≠ [] ∧
    checkMessage (some (.jstr (String.mk (List.replicate 1001 'a')))) ≠ [] :=
  ⟨(message_boundary_lengths _).1
    (Or.inl (by rw [stringMk_length, List.length_replicate])),
   (message_boundary_lengths _).1
    (Or.inr (by rw [stringMk_length, List.length_replicate])),
   (message_boundary_lengths _).2
    (Or.inl (by rw [stringMk_length, List.length_replicate])),
   (message_boundary_lengths _).2
    (Or.inr (by rw [stringMk_length, List.length_replicate]))⟩

/-- C4 counterexample: the payload whose `contactAbout` is the empty string
(all other fields valid) passes validation — the schema does not require
non-empty text — and the handler proceeds to the success response. -/
theorem contactAbout_empty_accepted :
    specContactAboutValid pEmptyTopic.contactAbout = false ∧
    zodIssues pEmptyTopic = [] ∧
    (contactHandler envNoAudience oracleAllOk pEmptyTopic).1.status = 200 := by
  refine ⟨rfl, by decide, by decide⟩

/-- C4 amended: the schema's only `contactAbout` constraint is that the
value is a string; in particular the empty string is accepted. -/
theorem contactAbout_only_requires_string (v : Option JVal) :
    (checkContactAbout v = [] ↔ ∃ s, v = some (.jstr s)) ∧
    checkContactAbout (some (.jstr "")) = [] := by
  refine ⟨⟨?_, ?_⟩, rfl⟩
  · intro h
    rcases v with _ | jv
    · simp [checkContactAbout] at h
    · cases jv with
      | jstr s => exact ⟨s, rfl⟩
      | jnum n => simp [checkContactAbout] at h
      | jbool b => simp [checkContactAbout] at h
      | jnull => simp [checkContactAbout] at h
      | jother => simp [checkContactAbout] at h
  · rintro ⟨s, rfl⟩
    rfl

/-- C1: a submission that passes validation and whose notification email
send succeeds yields the 200 success response regardless of the
audience-enrollment outcome; when the member lookup throws, an add-member
call is attempted, and lookup/add failures never change the response. -/
theorem contact_success_independent_of_enrollment (env : Env) (o : Oracle)
    (p : RawContact) (hz : zodIssues p = [])
    (hm : o.sendMail (mailOptionsOf env (validatedOf p)) = .ok ()) :
    (contactHandler env o p).1.status = 200 ∧
    (contactHandler env o p).1.success = true ∧
    (∀ aid e, env.audienceId = some aid →
      envTruthy env.audienceId = true →
      o.getListMember aid (subscriberHashContact (validatedOf p).email) =
        .error e →
      ApiCall.addListMemberContact aid (contactAddBody (validatedOf p)) ∈
        (contactHandler env o p).2) := by
  simp only [contactHandler, hz, hm]
  refine ⟨?_, ?_, ?_⟩
  · cases hc : envTruthy env.audienceId with
    | false => simp [hc]
    | true =>
      simp only [hc]
      rcases hG : o.getListMember (env.audienceId.getD "")
          (subscriberHashContact (validatedOf p).email) with e | u <;> simp [hG]
  · cases hc : envTruthy env.audienceId with
    | false => simp [hc]
    | true =>
      simp only [hc]
      rcases hG : o.getListMember (env.audienceId.getD "")
          (subscriberHashContact (validatedOf p).email) with e | u <;> simp [hG]
  · intro aid e haid htr hg
    rw [haid] at htr
    simp only [haid, Option.getD_some, hg, htr]
    simp

/-- Witness for C1: valid payload, mail transport succeeds, every
audience-service call fails — response is still 200 and the add-member
call was attempted. -/
theorem contact_success_independent_of_enrollment_witness :
    zodIssues pValid = [] ∧
    (contactHandler envFull oracleEnrollFails pValid).1.status = 200 ∧
    (contactHandler envFull oracleEnrollFails pValid).1.success = true ∧
    ApiCall.addListMemberContact "list1" (contactAddBody (validatedOf pValid)) ∈
      (contactHandler envFull oracleEnrollFails pValid).2 :=
  have h := contact_success_independent_of_enrollment envFull oracleEnrollFails
    pValid (by decide) rfl
  ⟨by decide, h.1, h.2.1, h.2.2 "list1" notFoundErr rfl (by decide) rfl⟩

/-- C2: when the mail transport throws, the response is a 500 with the
generic message plus the transport error text, and no audience-service
call is made. -/
theorem contact_mail_failure_aborts (env : Env) (o : Oracle) (p : RawContact)
    (msg : String) (hz : zodIssues p = [])
    (hm : o.sendMail (mailOptionsOf env (validatedOf p)) = .error msg) :
    (contactHandler env o p).1 =
      { status := 500, success := false,
        message := "Failed to submit contact form", error := some msg } ∧
    (contactHandler env o p).2 =
      [.sendMail (mailOptionsOf env (validatedOf p))] ∧
    (contactHandler env o p).2.filter isAudienceCall = [] := by
  simp [contactHandler, hz, hm, isAudienceCall]

/-- Witness for C2 at a concrete transport failure. -/
theorem contact_mail_failure_aborts_witness :
    zodIssues pValid = [] ∧
    (contactHandler envFull oracleMailFails pValid).1 =
      { status := 500, success := false,
        message := "Failed to submit contact form",
        error :=
          some "Invalid login: 535-5.7.8 Username and Password not accepted" } ∧
    (contactHandler envFull oracleMailFails pValid).2.filter isAudienceCall
      = [] :=
  have h := contact_mail_failure_aborts envFull oracleMailFails pValid
    "Invalid login: 535-5.7.8 Username and Password not accepted"
    (by decide) rfl
  ⟨by decide, h.1, h.2.2⟩

/-- C3 (code bug): at the payload with two simultaneously violated
constraints, the schema does aggregate exactly one issue per violated
check (two in all, not fail-fast) and no external call is made — but the
catch block builds the 400 body from `error.errors`, a property Zod 4
removed, so the handler throws a TypeError and the documented 400 response
with the per-violation error entries is never sent. -/
theorem contact_validation_crashes_before_400 :
    (zodIssues pTwoInvalid).length = violatedCount pTwoInvalid ∧
    (zodIssues pTwoInvalid).length = 2 ∧
    contactEndpoint envNoAudience oracleAllOk pTwoInvalid =
      (.threw, []) ∧
    ∀ (r : HttpResponse) (calls : List ApiCall),
      contactEndpoint envNoAudience oracleAllOk pTwoInvalid ≠
        (.sent r, calls) := by
  refine ⟨by decide, by decide, by decide, ?_⟩
  intro r calls hc
  have he : contactEndpoint envNoAudience oracleAllOk pTwoInvalid =
      (.threw, []) := by decide
  rw [he] at hc
  simp at hc

/-- C6 counterexample: with the audience list unconfigured, a subscribe
request whose email is empty gets a 400 ("Email is required"), not the 500
configuration error the claim states for every request. -/
theorem subscribe_unconfigured_missing_email_not_500 :
    envTruthy envNoAudience.audienceId = false ∧
    (subscribeHandler envNoAudience oracleAllOk ⟨some "", none, none⟩).1.status
      = 400 ∧
    (subscribeHandler envNoAudience oracleAllOk ⟨some "", none, none⟩).1.status
      ≠ 500 ∧
    (subscribeHandler envNoAudience oracleAllOk ⟨some "", none, none⟩).2
      = [] := by
  decide

/-- C6 amended: for every subscribe request with a (truthy) email and every
unsubscribe request with a non-empty email path parameter, an unconfigured
audience list yields a 500 with the configuration-specific message
(distinct from the service-error messages) and zero audience-service
calls. -/
theorem config_error_before_audience_calls (env : Env) (o : Oracle)
    (hcfg : envTruthy env.audienceId = false) :
    (∀ b : SubscribeRequestBody, envTruthy b.email = true →
      subscribeHandler env o b =
        ({ status := 500, success := false,
           message := "Mailchimp audience ID is not configured" }, [])) ∧
    (∀ email : String, email ≠ "" →
      unsubscribeHandler env o email =
        ({ status := 500, success := false,
           message := "Mailchimp audience ID is not configured" }, [])) ∧
    "Mailchimp audience ID is not configured" ≠
      "Failed to subscribe to newsletter" ∧
    "Mailchimp audience ID is not configured" ≠
      "Failed to unsubscribe from newsletter" := by
  refine ⟨fun b hb => ?_, fun email he => ?_, by decide, by decide⟩
  · simp [subscribeHandler, hb, hcfg]
  · simp [unsubscribeHandler, he, hcfg]

/-- Witness for C6 (amended) at concrete subscribe and unsubscribe
requests. -/
theorem config_error_before_audience_calls_witness :
    subscribeHandler envNoAudience oracleAllOk bSub =
      ({ status := 500, success := false,
         message := "Mailchimp audience ID is not configured" }, []) ∧
    unsubscribeHandler envNoAudience oracleAllOk "user@example.com" =
      ({ status := 500, success := false,
         message := "Mailchimp audience ID is not configured" }, []) :=
  have h := config_error_before_audience_calls envNoAudience oracleAllOk rfl
  ⟨h.1 bSub (by decide), h.2.1 "user@example.com" (by decide)⟩

/-- C7: an add-member failure with status 400 and body title
"Member Exists" yields the specific already-subscribed 400 response; any
other add-member failure yields the generic 500 with the error text. -/
theorem subscribe_member_exists_distinction (env : Env) (o : Oracle)
    (b : SubscribeRequestBody) (err : MailchimpError)
    (hb : envTruthy b.email = true) (hcfg : envTruthy env.audienceId = true)
    (ha : o.addListMemberSub (env.audienceId.getD "") (subBodyOf b) =
      .error err) :
    (err.status = some 400 ∧ titleOf err = some "Member Exists" →
      (subscribeHandler env o b).1 =
        { status := 400, success := false,
          message := "This email is already subscribed to the newsletter" }) ∧
    (¬ (err.status = some 400 ∧ titleOf err = some "Member Exists") →
      (subscribeHandler env o b).1 =
        { status := 500, success := false,
          message := "Failed to subscribe to newsletter",
          error := some err.message }) := by
  constructor
  · intro h
    simp [subscribeHandler, hb, hcfg, ha, h]
  · intro h
    simp [subscribeHandler, hb, hcfg, ha, h]

/-- Witness for C7: both the duplicate-member branch and the generic
branch at concrete errors. -/
theorem subscribe_member_exists_distinction_witness :
    (subscribeHandler envFull oracleEnrollFails bSub).1 =
      { status := 400, success := false,
        message := "This email is already subscribed to the newsletter" } ∧
    (subscribeHandler envFull oracleAddGenericFails bSub).1 =
      { status := 500, success := false,
        message := "Failed to subscribe to newsletter",
        error := some "connection reset" } :=
  have h := subscribe_member_exists_distinction envFull oracleEnrollFails bSub
    memberExistsErr (by decide) (by decide) rfl
  have h2 := subscribe_member_exists_distinction envFull oracleAddGenericFails
    bSub genericErr (by decide) (by decide) rfl
  ⟨h.1 (by decide), h2.2 (by decide)⟩

/-- C8 counterexample: the code splits the name on the space character
only, not on whitespace: for the valid payload whose name is
`"Jane\tDoe"`, the member is created with first name `"Jane\tDoe"`, while
the spec's whitespace split gives `"Jane"`. -/
theorem name_split_not_on_whitespace :
    zodIssues pTabName = [] ∧
    (contactAddBody (validatedOf pTabName)).fname = "Jane\tDoe" ∧
    specFirstName "Jane\tDoe" = "Jane" ∧
    specLastName "Jane\tDoe" = "Doe" ∧
    (contactAddBody (validatedOf pTabName)).fname ≠
      specFirstName (validatedOf pTabName).name := by
  decide

/-- C8 amended: on a failed lookup the member is created (status
`subscribed`, merge fields for first/last name and phone, tag
`contact-form`) with the name split on the space character: first element
as first name, remaining elements joined by single spaces as last name
(empty when there is no space); `"Jane Q Public"` splits to `"Jane"` /
`"Q Public"`. -/
theorem contact_enrollment_name_split (env : Env) (o : Oracle)
    (p : RawContact) (aid : String) (e : MailchimpError)
    (hz : zodIssues p = [])
    (hm : o.sendMail (mailOptionsOf env (validatedOf p)) = .ok ())
    (haid : env.audienceId = some aid)
    (htr : envTruthy env.audienceId = true)
    (hg : o.getListMember aid (subscriberHashContact (validatedOf p).email) =
      .error e) :
    ApiCall.addListMemberContact aid (contactAddBody (validatedOf p)) ∈
      (contactHandler env o p).2 ∧
    contactAddBody (validatedOf p) =
      { email_address := (validatedOf p).email, status := "subscribed",
        fname := firstNameOf (validatedOf p).name,
        lname := lastNameOf (validatedOf p).name,
        phone := (validatedOf p).phone, tags := ["contact-form"] } ∧
    (firstNameOf "Jane Q Public" = "Jane" ∧
      lastNameOf "Jane Q Public" = "Q Public") ∧
    (∀ n : String, ' ' ∉ n.data → firstNameOf n = n ∧ lastNameOf n = "") := by
  refine ⟨?_, rfl, by decide, lastNameOf_no_space⟩
  rw [haid] at htr
  simp only [contactHandler, hz, hm, haid, Option.getD_some, hg, htr]
  simp

/-- Witness for C8 (amended): the `"Jane Q Public"` enrollment. -/
theorem contact_enrollment_name_split_witness :
    ApiCall.addListMemberContact "list1" (contactAddBody (validatedOf pValid)) ∈
      (contactHandler envFull oracleEnrollFails pValid).2 ∧
    (contactAddBody (validatedOf pValid)).fname = "Jane" ∧
    (contactAddBody (validatedOf pValid)).lname = "Q Public" ∧
    (contactAddBody (validatedOf pValid)).tags = ["contact-form"] :=
  have h := contact_enrollment_name_split envFull oracleEnrollFails pValid
    "list1" notFoundErr (by decide) rfl rfl (by decide) rfl
  ⟨h.1, by decide, by decide, rfl⟩

/-- C10: a validated submission processed with no configured audience list
still succeeds with 200, the enrollment step is skipped entirely (no
audience-service call, no configuration error), unlike the standalone
subscribe endpoint which answers 500 in that situation. -/
theorem contact_skips_enrollment_without_config (env : Env) (o : Oracle)
    (p : RawContact) (hz : zodIssues p = [])
    (hm : o.sendMail (mailOptionsOf env (validatedOf p)) = .ok ())
    (hcfg : envTruthy env.audienceId = false) :
    contactHandler env o p =
      ({ status := 200, success := true,
         message := "Contact form submitted successfully!" },
       [.sendMail (mailOptionsOf env (validatedOf p))]) ∧
    (contactHandler env o p).2.filter isAudienceCall = [] ∧
    (∀ b : SubscribeRequestBody, envTruthy b.email = true →
      (subscribeHandler env o b).1.status = 500 ∧
      (subscribeHandler env o b).1.message =
        "Mailchimp audience ID is not configured") := by
  refine ⟨?_, ?_, ?_⟩
  · simp [contactHandler, hz, hm, hcfg]
  · simp [contactHandler, hz, hm, hcfg, isAudienceCall]
  · intro b hb
    simp [subscribeHandler, hb, hcfg]

/-- Witness for C10 at a concrete valid payload with no audience list
configured. -/
theorem contact_skips_enrollment_without_config_witness :
    zodIssues pValid = [] ∧
    contactHandler envNoAudience oracleAllOk pValid =
      ({ status := 200, success := true,
         message := "Contact form submitted successfully!" },
       [.sendMail (mailOptionsOf envNoAudience (validatedOf pValid))]) ∧
    (subscribeHandler envNoAudience oracleAllOk bSub).1.status = 500 :=
  have h := contact_skips_enrollment_without_config envNoAudience oracleAllOk
    pValid (by decide) rfl rfl
  ⟨by decide, h.1, (h.2.2 bSub (by decide)).1⟩
